import Mathlib

/-!
Verification of the terminal-session manager backend.

Shallow embedding of the Python sources:
  backend/app/models.py            (SessionStatus, SessionRecord)
  backend/app/services/session_manager.py
  backend/app/utils/git.py
  backend/app/main.py              (HTTP handlers)
  backend/app/schemas.py           (request validation)

Times are modelled as natural numbers, byte strings as `String`
(the code decodes everything lossily to UTF-8 strings), and the
registry as an association list.
-/

namespace TerminalManage

/-- Session lifecycle statuses, from `models.py` `SessionStatus`. -/
inductive SessionStatus where
  | running
  | completed
  | stopped
  | error
  | interrupted
deriving DecidableEq, Repr

/-- Membership in `SessionStatus.FINAL_STATES` from `models.py`. -/
def SessionStatus.isFinal : SessionStatus → Bool
  | .completed => true
  | .stopped => true
  | .error => true
  | .interrupted => true
  | .running => false

/-- The durable `sessions` row, from `models.py` `SessionRecord`. -/
structure SessionRecord where
  id : String
  profile_id : Int
  cwd : Option String
  log_path : String
  created_at : Nat
  finished_at : Option Nat
  status : SessionStatus
  exit_code : Option Int
deriving DecidableEq, Repr

/-- `SessionManager._update_session_record` (session_manager.py lines 314-336):
applied to the record when it is found in the database; `now` stands for
`datetime.utcnow()`. -/
def updateSessionRecord (status : Option SessionStatus) (exit_code : Option Int)
    (now : Nat) (r : SessionRecord) : SessionRecord :=
  let r :=
    match status with
    | some st =>
      let r := { r with status := st }
      if st.isFinal then { r with finished_at := some now }
      else if st = SessionStatus.running then { r with finished_at := none }
      else r
    | none => r
  match exit_code with
  | some c => { r with exit_code := some c }
  | none => r

/-- `mark_orphan_sessions` (main.py lines 83-97), restricted to one record:
a `running` record is set to `interrupted` with `finished_at = now`,
any other record is untouched. -/
def orphanRecover (now : Nat) (r : SessionRecord) : SessionRecord :=
  if r.status = SessionStatus.running then
    { r with status := SessionStatus.interrupted, finished_at := some now }
  else r

/-- The record that `create_session` (main.py lines 199-205) inserts:
status `running`, no finish time, no exit code. -/
def mkSessionRecord (id : String) (profile_id : Int) (cwd : Option String)
    (log_path : String) (created_at : Nat) : SessionRecord :=
  { id := id, profile_id := profile_id, cwd := cwd, log_path := log_path,
    created_at := created_at, finished_at := none,
    status := SessionStatus.running, exit_code := none }

/-- The record updates the core ever performs after creation:
the monitor on child exit (`completed`/`error` with the exit code), the
explicit `terminate_session` path (`stopped`), and startup orphan
recovery (`running` → `interrupted`). -/
inductive CoreUpdate where
  | monitorExit (code : Int) (now : Nat)
  | terminateUpd (now : Nat)
  | orphan (now : Nat)
deriving DecidableEq, Repr

/-- Apply one core-initiated update to a record. The monitor passes
`completed` iff the exit code is 0 (session_manager.py line 201) together
with the exit code; `terminate_session` passes `stopped` and no exit code
(line 144). -/
def applyUpdate : CoreUpdate → SessionRecord → SessionRecord
  | .monitorExit code now, r =>
      updateSessionRecord
        (some (if code = 0 then SessionStatus.completed else SessionStatus.error))
        (some code) now r
  | .terminateUpd now, r => updateSessionRecord (some SessionStatus.stopped) none now r
  | .orphan now, r => orphanRecover now r

/-- A sequence of core updates applied in order. -/
def applyUpdates (us : List CoreUpdate) (r : SessionRecord) : SessionRecord :=
  us.foldl (fun r u => applyUpdate u r) r

lemma applyUpdate_final (u : CoreUpdate) (r : SessionRecord)
    (h : r.status.isFinal = true) : (applyUpdate u r).status.isFinal = true := by
  cases u with
  | monitorExit code now =>
    by_cases hc : code = 0 <;>
      simp [applyUpdate, updateSessionRecord, hc, SessionStatus.isFinal]
  | terminateUpd now =>
    simp [applyUpdate, updateSessionRecord, SessionStatus.isFinal]
  | orphan now =>
    have : r.status ≠ SessionStatus.running := by
      intro he; rw [he] at h; simp [SessionStatus.isFinal] at h
    simp [applyUpdate, orphanRecover, this, h]

lemma applyUpdates_final (us : List CoreUpdate) (r : SessionRecord)
    (h : r.status.isFinal = true) : (applyUpdates us r).status.isFinal = true := by
  induction us generalizing r with
  | nil => exact h
  | cons u us ih => exact ih _ (applyUpdate_final u r h)

lemma isFinal_ne_running {s : SessionStatus} (h : s.isFinal = true) :
    s ≠ SessionStatus.running := by
  intro he; rw [he] at h; simp [SessionStatus.isFinal] at h

/-! Git helper, from `utils/git.py`. Python dicts are modelled as
insertion-ordered association lists with unique keys (the `dictInsert`
below preserves that, like a real dict). -/

/-- Key lookup in a Python-dict model (`before[path]` / `path in before`). -/
def dictLookup (d : List (String × String)) (k : String) : Option String :=
  (d.find? (fun p => decide (p.1 = k))).map Prod.snd

/-- Python `path in d` membership test. -/
def dictContains (d : List (String × String)) (k : String) : Bool :=
  (dictLookup d k).isSome

/-- Python `d[k] = v`: overwrite in place when the key exists (dicts keep
the original insertion position), append otherwise. -/
def dictInsert (d : List (String × String)) (k v : String) : List (String × String) :=
  if dictContains d k then
    d.map (fun p => if p.1 = k then (k, v) else p)
  else d ++ [(k, v)]

/-- Outcome of one `git` subprocess invocation, the input to `_run_git`
(git.py lines 11-30): whether the binary exists (`FileNotFoundError`
otherwise), and the return code and stdout it produced. -/
structure GitEnv where
  binaryPresent : Bool
  returncode : Int
  stdout : String
deriving DecidableEq, Repr

/-- `_run_git` (git.py lines 11-30): a missing binary is treated as
return code 1 with empty output; a non-zero return code yields `none`,
otherwise the decoded stdout. -/
def run_git (env : GitEnv) : Option String :=
  let res := if env.binaryPresent then (env.returncode, env.stdout) else ((1 : Int), "")
  if res.1 ≠ 0 then none else some res.2

/-- One line of `git status --short` parsed as in git.py lines 41-42:
code = first two characters stripped, path = characters from index 3 on,
stripped. -/
def parseStatusLine (line : String) : String × String :=
  ((line.take 2).trim, (line.drop 3).trim)

/-- The dict-building loop of `get_git_status` (git.py lines 37-44),
skipping blank lines; later lines for the same path overwrite earlier
ones. `splitlines` is modelled for LF-separated git output. -/
def parseStatusMap (out : String) : List (String × String) :=
  (out.splitOn "\n").foldl
    (fun acc line =>
      if line.trim = "" then acc
      else
        let pr := parseStatusLine line
        dictInsert acc pr.2 pr.1)
    []

/-- `get_git_status` (git.py lines 33-44). -/
def get_git_status (env : GitEnv) : Option (List (String × String)) :=
  match run_git env with
  | none => none
  | some out => some (parseStatusMap out)

/-- `get_git_status_rows` (git.py lines 47-56): order-preserving variant. -/
def get_git_status_rows (env : GitEnv) : Option (List (String × String)) :=
  match run_git env with
  | none => none
  | some out =>
    some ((out.splitOn "\n").foldl
      (fun acc line =>
        if line.trim = "" then acc
        else acc ++ [parseStatusLine line])
      [])

/-- `get_git_diff_stat` (git.py lines 59-60). -/
def get_git_diff_stat (env : GitEnv) : Option String :=
  run_git env

/-- The delta returned by `diff_status` (git.py lines 63-77). -/
structure GitDelta where
  added : List String
  modified : List String
  deleted : List String
deriving DecidableEq, Repr

/-- Body of the first loop of `diff_status` (over `after.items()`). -/
def diffStepAfter (before : List (String × String)) (d : GitDelta)
    (p : String × String) : GitDelta :=
  match dictLookup before p.1 with
  | none => { d with added := d.added ++ [p.1 ++ " (" ++ p.2 ++ ")"] }
  | some old =>
    if old ≠ p.2 then
      { d with modified := d.modified ++ [p.1 ++ " (" ++ old ++ " -> " ++ p.2 ++ ")"] }
    else d

/-- Body of the second loop of `diff_status` (over `before.items()`). -/
def diffStepBefore (after : List (String × String)) (d : GitDelta)
    (p : String × String) : GitDelta :=
  if dictContains after p.1 then d
  else { d with deleted := d.deleted ++ [p.1 ++ " (" ++ p.2 ++ ")"] }

/-- `diff_status` (git.py lines 63-77). -/
def diff_status (before after : List (String × String)) : GitDelta :=
  let d : GitDelta := ⟨[], [], []⟩
  let d := after.foldl (diffStepAfter before) d
  before.foldl (diffStepBefore after) d

/-- Rendering of an added/deleted entry, following the spec's words. -/
def renderEntry (p : String × String) : String :=
  p.1 ++ " (" ++ p.2 ++ ")"

/-- Rendering of a modified entry (old code from `before`), following the
spec's words: `none` when the key is absent from `before` or the codes
agree. -/
def renderModified (before : List (String × String)) (p : String × String) :
    Option String :=
  match dictLookup before p.1 with
  | none => none
  | some old =>
    if old ≠ p.2 then some (p.1 ++ " (" ++ old ++ " -> " ++ p.2 ++ ")") else none

lemma foldl_diffStepAfter (before : List (String × String)) :
    ∀ (after : List (String × String)) (d : GitDelta),
      after.foldl (diffStepAfter before) d =
        ⟨d.added ++ (after.filter (fun p => !dictContains before p.1)).map renderEntry,
         d.modified ++ after.filterMap (renderModified before),
         d.deleted⟩ := by
  intro after
  induction after with
  | nil => intro d; simp
  | cons p rest ih =>
    intro d
    rw [List.foldl_cons, ih]
    cases hl : dictLookup before p.1 with
    | none =>
      simp [diffStepAfter, hl, renderModified, dictContains, renderEntry]
    | some old =>
      by_cases hne : old = p.2
      · simp [diffStepAfter, hl, hne, renderModified, dictContains]
      · simp [diffStepAfter, hl, hne, renderModified, dictContains]

lemma foldl_diffStepBefore (after : List (String × String)) :
    ∀ (before : List (String × String)) (d : GitDelta),
      before.foldl (diffStepBefore after) d =
        ⟨d.added, d.modified,
         d.deleted ++ (before.filter (fun p => !dictContains after p.1)).map renderEntry⟩ := by
  intro before
  induction before with
  | nil => intro d; simp
  | cons p rest ih =>
    intro d
    rw [List.foldl_cons, ih]
    by_cases hc : dictContains after p.1
    · simp [diffStepBefore, hc]
    · simp [diffStepBefore, hc, renderEntry]

lemma dictLookup_self :
    ∀ (before : List (String × String)), (before.map Prod.fst).Nodup →
      ∀ p ∈ before, dictLookup before p.1 = some p.2 := by
  intro before
  induction before with
  | nil => intro _ p hp; cases hp
  | cons q rest ih =>
    intro hnd p hp
    have hnd' : q.1 ∉ rest.map Prod.fst ∧ (rest.map Prod.fst).Nodup := by
      rw [List.map_cons, List.nodup_cons] at hnd
      exact hnd
    rcases List.mem_cons.mp hp with he | hm
    · subst he
      simp [dictLookup, List.find?]
    · have hne : q.1 ≠ p.1 := by
        intro he
        exact hnd'.1 (he ▸ List.mem_map_of_mem Prod.fst hm)
      have hrest := ih hnd'.2 p hm
      simpa [dictLookup, List.find?, hne] using hrest

/-! Session manager, from `services/session_manager.py`. WebSocket
subscribers are identified by numbers; whether a given subscriber's
`send_json` raises is an input predicate `fails`. A pty handle carries
its liveness bit. -/

/-- A spawned child handle (`pywinpty.PtyProcess`): only its liveness
is observable to the claims. -/
structure PtyHandle where
  alive : Bool
deriving DecidableEq, Repr

/-- The in-memory per-session value object (`SessionContext`,
session_manager.py lines 22-51). Fields irrelevant to the claims
(command vector, env, paths) are kept abstractly where needed. -/
structure SessionContext where
  session_id : String
  profile_id : Int
  cwd_has_git : Bool
  command_buffer : String
  sockets : List Nat
  pty : Option PtyHandle
  log_open : Bool
  reader_active : Bool
  monitor_active : Bool
deriving DecidableEq, Repr

/-- The `for socket in list(context.sockets)` loop of `_broadcast_text`
(session_manager.py lines 218-224): `snapshot` is the `list(...)` copy
taken up front, `sockets` the live set mutated by `discard`; a failing
send discards the subscriber, a successful one delivers the payload. -/
def broadcastLoop (fails : Nat → Bool) (text : String) :
    List Nat → List Nat → List Nat × List (Nat × String)
  | [], sockets => (sockets, [])
  | s :: rest, sockets =>
    if fails s then broadcastLoop fails text rest (sockets.filter (fun t => decide (t ≠ s)))
    else
      let res := broadcastLoop fails text rest sockets
      (res.1, (s, text) :: res.2)

/-- `_broadcast_text` (session_manager.py lines 218-224): iterates over a
snapshot of the subscriber set, delivering `{"type": "output", "data": text}`
and discarding any subscriber whose send raises. Returns the updated
context and the list of (subscriber, payload) deliveries. -/
def broadcast_text (fails : Nat → Bool) (ctx : SessionContext) (text : String) :
    SessionContext × List (Nat × String) :=
  let res := broadcastLoop fails text ctx.sockets ctx.sockets
  ({ ctx with sockets := res.1 }, res.2)

lemma broadcastLoop_sent (fails : Nat → Bool) (text : String) :
    ∀ (snap sockets : List Nat),
      (broadcastLoop fails text snap sockets).2 =
        (snap.filter (fun s => !fails s)).map (fun s => (s, text)) := by
  intro snap
  induction snap with
  | nil => intro sockets; simp [broadcastLoop]
  | cons s rest ih =>
    intro sockets
    by_cases hs : fails s
    · simp [broadcastLoop, hs, ih]
    · simp [broadcastLoop, hs, ih]

lemma filter_ne_filter_not_fails (fails : Nat → Bool) (s : Nat) (hs : fails s = true) :
    ∀ (l : List Nat),
      (l.filter (fun t => decide (t ≠ s))).filter (fun t => !fails t) =
        l.filter (fun t => !fails t) := by
  intro l
  rw [List.filter_filter]
  apply List.filter_congr
  intro t _
  by_cases ht : t = s
  · subst ht; simp [hs]
  · simp [ht]

lemma broadcastLoop_sockets (fails : Nat → Bool) (text : String) :
    ∀ (snap sockets : List Nat),
      (∀ t ∈ sockets, fails t = true → t ∈ snap) →
      (broadcastLoop fails text snap sockets).1 =
        sockets.filter (fun t => !fails t) := by
  intro snap
  induction snap with
  | nil =>
    intro sockets h
    have : sockets.filter (fun t => !fails t) = sockets := by
      rw [List.filter_eq_self]
      intro t ht
      have : ¬ fails t = true := fun hf => by cases h t ht hf
      simp [this]
    simp [broadcastLoop, this]
  | cons s rest ih =>
    intro sockets h
    by_cases hs : fails s
    · rw [broadcastLoop]
      simp only [hs, if_true]
      rw [ih]
      · exact filter_ne_filter_not_fails fails s hs sockets
      · intro t ht hf
        have ht' := List.mem_filter.mp ht
        have hne : t ≠ s := by simpa using ht'.2
        rcases List.mem_cons.mp (h t ht'.1 hf) with he | hm
        · exact absurd he hne
        · exact hm
    · rw [broadcastLoop]
      simp only [hs, if_false, Bool.false_eq_true]
      rw [ih]
      intro t ht hf
      rcases List.mem_cons.mp (h t ht hf) with he | hm
      · subst he; exact absurd hf hs
      · exact hm

/-- Events emitted by `terminate_session`, in order. The
`terminateChild` event records how the back-end terminate was invoked:
the `force` flag actually passed and the grace window, if any, that the
call waits before forcing (the spec's `terminate(handle, grace_timeout)`
shape; the code's `pty.terminate(force=True)` carries no grace window). -/
inductive TermEvent where
  | terminateChild (force : Bool) (graceSeconds : Option Nat)
  | closeLog
  | cancelTasks
  | broadcastMsg (msg : String)
  | recordUpdate (st : SessionStatus)
  | removeCtx
deriving DecidableEq, Repr

/-- Registry lookup, `self._sessions.get(session_id)`. -/
def lookupCtx (sessions : List (String × SessionContext)) (sid : String) :
    Option SessionContext :=
  (sessions.find? (fun p => decide (p.1 = sid))).map Prod.snd

/-- `self._sessions.pop(session_id, None)`. -/
def removeCtxEntry (sessions : List (String × SessionContext)) (sid : String) :
    List (String × SessionContext) :=
  sessions.filter (fun p => decide (p.1 ≠ sid))

/-- `terminate_session` (session_manager.py lines 125-145): missing id is a
no-op; otherwise, when a child handle is present, `pty.terminate(force=True)`
is invoked immediately (exceptions swallowed), then the log is closed, the
pump/monitor tasks cancelled, the handle cleared, the reason (if given)
broadcast as `\r\n<reason>\r\n`, the record updated to `stopped` via
`_update_session_record`, and the context removed from the registry.
Returns the registry, the updated record, and the ordered event trace. -/
def terminate_session (sessions : List (String × SessionContext)) (sid : String)
    (reason : Option String) (record : SessionRecord) (now : Nat) :
    List (String × SessionContext) × SessionRecord × List TermEvent :=
  match lookupCtx sessions sid with
  | none => (sessions, record, [])
  | some ctx =>
    let evs :=
      match ctx.pty with
      | some _ => [TermEvent.terminateChild true none]
      | none => []
    let evs := evs ++ [TermEvent.closeLog, TermEvent.cancelTasks]
    let evs :=
      match reason with
      | some msg => evs ++ [TermEvent.broadcastMsg ("\r\n" ++ msg ++ "\r\n")]
      | none => evs
    let record := updateSessionRecord (some SessionStatus.stopped) none now record
    let evs := evs ++ [TermEvent.recordUpdate SessionStatus.stopped, TermEvent.removeCtx]
    (removeCtxEntry sessions sid, record, evs)

/-- Result of one `_monitor` run (session_manager.py lines 186-211). -/
structure MonitorOutcome where
  ctx : SessionContext
  record : SessionRecord
  sent : List (Nat × String)
  removed : Bool
deriving Repr

/-- `_monitor` (session_manager.py lines 186-211): with a spawned child,
awaits exit yielding `return_code`, derives the status (`completed` iff the
code is 0, else `error`), broadcasts the exit notice, closes the log,
cancels the reader, clears the task and child handles, updates the record
with status, exit code and finish time, and removes the context from the
registry. An early `return` happens when no child was spawned. -/
def monitorRun (fails : Nat → Bool) (return_code : Int) (ctx : SessionContext)
    (record : SessionRecord) (now : Nat) : MonitorOutcome :=
  match ctx.pty with
  | none => ⟨ctx, record, [], false⟩
  | some _ =>
    let status := if return_code = 0 then SessionStatus.completed else SessionStatus.error
    let res := broadcast_text fails ctx
      ("\r\nProcess finished with code " ++ toString return_code ++ "\r\n")
    let ctx := res.1
    let ctx := { ctx with log_open := false }
    let ctx := { ctx with reader_active := false, monitor_active := false, pty := none }
    let record := updateSessionRecord (some status) (some return_code) now record
    ⟨ctx, record, res.2, true⟩

/-- `format_delta` (git.py lines 80-96). Python's `if command:` is truthy:
the `Command:` line appears only for a non-`None`, non-empty label. -/
def format_delta (delta : GitDelta) (command : Option String) : String :=
  if delta.added.length = 0 ∧ delta.modified.length = 0 ∧ delta.deleted.length = 0 then
    "=== Git Diff Before/After ===\n无文件变更\n=============================="
  else
    let lines := ["=== Git Diff Before/After ==="]
    let lines :=
      match command with
      | some c => if c ≠ "" then lines ++ ["Command: " ++ c] else lines
      | none => lines
    let lines :=
      if delta.added ≠ [] then
        lines ++ ["Added:"] ++ delta.added.map (fun i => "  " ++ i)
      else lines
    let lines :=
      if delta.modified ≠ [] then
        lines ++ ["Modified:"] ++ delta.modified.map (fun i => "  " ++ i)
      else lines
    let lines :=
      if delta.deleted ≠ [] then
        lines ++ ["Deleted:"] ++ delta.deleted.map (fun i => "  " ++ i)
      else lines
    String.intercalate "\n" (lines ++ ["=============================="])

/-- The filesystem and git observations consumed by one `_handle_newline`
run: whether `<cwd>/.git` exists at the re-check, and the outcomes of the
before and after `git status` subprocesses. -/
structure NLOracle where
  gitDirExists : Bool
  beforeEnv : GitEnv
  afterEnv : GitEnv
deriving Repr

/-- Result of `_handle_newline` / `_process_input`: the mutated context, the
strings written to the child in order, and the strings broadcast to the
subscribers (here only the injected git-delta blocks). -/
structure InputResult where
  ctx : SessionContext
  writes : List String
  broadcasts : List String
deriving Repr

/-- `_write_to_pty` (session_manager.py lines 289-300): a no-op on empty
data or a missing child handle, otherwise appends one write. -/
def write_to_pty (ctx : SessionContext) (data : String) (acc : List String) :
    List String :=
  if data = "" ∨ ctx.pty = none then acc else acc ++ [data]

/-- `_handle_newline` (session_manager.py lines 261-287): on `\r`, re-check
the `.git` memo, take the before snapshot and trimmed command label when the
memo holds, clear the command buffer, forward the newline, then (if a before
snapshot exists) take the after snapshot; a `none` after snapshot clears
`cwd_has_git` with no broadcast, otherwise the delta is broadcast when any
bucket is non-empty. On `\n` the byte is forwarded with no git sampling. -/
def handle_newline (ctx : SessionContext) (c : Char) (o : NLOracle) : InputResult :=
  let ctx :=
    if c = '\r' ∧ ¬ctx.cwd_has_git ∧ o.gitDirExists then
      { ctx with cwd_has_git := true }
    else ctx
  let before_snapshot :=
    if c = '\r' ∧ ctx.cwd_has_git then get_git_status o.beforeEnv else none
  let command_label :=
    if c = '\r' ∧ ctx.cwd_has_git then some ctx.command_buffer.trim else none
  let ctx := if c = '\r' then { ctx with command_buffer := "" } else ctx
  let payload := if c = '\r' then "\r" else String.singleton c
  let writes := write_to_pty ctx payload []
  match before_snapshot with
  | none => ⟨ctx, writes, []⟩
  | some before =>
    match get_git_status o.afterEnv with
    | none => ⟨{ ctx with cwd_has_git := false }, writes, []⟩
    | some after =>
      let delta := diff_status before after
      if delta.added ≠ [] ∨ delta.modified ≠ [] ∨ delta.deleted ≠ [] then
        ⟨ctx, writes, [format_delta delta command_label ++ "\r\n"]⟩
      else ⟨ctx, writes, []⟩

/-- `flush_buffer` inside `_process_input` (session_manager.py lines
238-241): writes the joined pending characters if any, and clears them. -/
def flush_buffer (ctx : SessionContext) (pending : List Char)
    (writes : List String) : List Char × List String :=
  if pending ≠ [] then ([], write_to_pty ctx (String.mk pending) writes)
  else (pending, writes)

/-- The character loop of `_process_input` (session_manager.py lines
243-259), threading the context, the pending write buffer, the writes and
broadcasts so far, and the per-newline oracles. Backspace (U+0008) and
delete (U+007F) drop the last code point of the command buffer
(`command_buffer[:-1]`, which on an empty buffer stays empty) and forward
the byte; Ctrl-C clears the buffer, forwards the byte and flushes; `\r` and
`\n` flush then run the newline handler; anything else accumulates. -/
def processChars (ctx : SessionContext) (pending : List Char)
    (writes broadcasts : List String) (oracles : List NLOracle) :
    List Char → InputResult
  | [] =>
    let fl := flush_buffer ctx pending writes
    ⟨ctx, fl.2, broadcasts⟩
  | c :: rest =>
    if c = '\u0008' ∨ c = '\u007f' then
      processChars { ctx with command_buffer := ctx.command_buffer.dropRight 1 }
        (pending ++ [c]) writes broadcasts oracles rest
    else if c = '\u0003' then
      let ctx := { ctx with command_buffer := "" }
      let fl := flush_buffer ctx (pending ++ [c]) writes
      processChars ctx fl.1 fl.2 broadcasts oracles rest
    else if c = '\r' ∨ c = '\n' then
      let fl := flush_buffer ctx pending writes
      let next :=
        match oracles with
        | o :: os => (o, os)
        | [] => (⟨false, ⟨true, 1, ""⟩, ⟨true, 1, ""⟩⟩, ([] : List NLOracle))
      let r := handle_newline ctx c next.1
      processChars r.ctx fl.1 (fl.2 ++ r.writes) (broadcasts ++ r.broadcasts)
        next.2 rest
    else
      processChars { ctx with command_buffer := ctx.command_buffer ++ String.singleton c }
        (pending ++ [c]) writes broadcasts oracles rest

/-- `_process_input` (session_manager.py lines 233-259): a no-op on empty
data or a missing child handle; otherwise the character loop followed by a
final flush. -/
def process_input (ctx : SessionContext) (data : List Char)
    (oracles : List NLOracle) : InputResult :=
  if data = [] ∨ ctx.pty = none then ⟨ctx, [], []⟩
  else processChars ctx [] [] [] oracles data

/-- `SessionManager.is_active` (session_manager.py lines 68-70):
`bool(context and context.pty and context.pty.isalive())`. -/
def is_active (ctx? : Option SessionContext) : Bool :=
  match ctx? with
  | some c =>
    match c.pty with
    | some p => p.alive
    | none => false
  | none => false

/-- The historical-replay banner literal from `fetch_log` (main.py 266). -/
def historicalBanner : String := "以下内容来自历史日志，仅供回放。"

/-- The `historical`/`message` computation of `fetch_log` (main.py lines
264-267) on an existing record: `historical` is
`record.status != RUNNING or not is_active(session_id)`, and `message` is
the banner when historical, else `None`. -/
def fetch_log_flags (record : SessionRecord) (ctx? : Option SessionContext) :
    Bool × Option String :=
  let active := is_active ctx?
  let historical := !decide (record.status = SessionStatus.running) || !active
  (historical, if historical then some historicalBanner else none)

/-- HTTP-level failures relevant to `POST /sessions`. -/
inductive HttpFailure where
  | unprocessableEntity
  | notFound
deriving DecidableEq, Repr

/-- `POST /sessions` as served: FastAPI first validates the body against
`SessionCreateRequest` (schemas.py lines 48-50, `quantity` constrained by
`Field(ge=1, le=10)` — violations are rejected with 422 before the handler
runs), then the handler (main.py lines 190-225) 404s on a missing profile,
clamps `quantity = max(1, min(quantity, 10))`, and creates one context and
one `running` record per unit. The result is the list of created record
statuses. -/
def create_session_endpoint (profileExists : Bool) (quantity : Int) :
    Except HttpFailure (List SessionStatus) :=
  if ¬(1 ≤ quantity ∧ quantity ≤ 10) then Except.error HttpFailure.unprocessableEntity
  else if ¬profileExists then Except.error HttpFailure.notFound
  else
    let q := max 1 (min quantity 10)
    Except.ok (List.replicate q.toNat SessionStatus.running)

end TerminalManage

namespace TerminalManage

/-- C1: every persistence-bridge update that sets a terminal status
(`completed`, `stopped`, `error`, `interrupted`) also sets `finished_at`
(orphan recovery included), and along any sequence of core updates applied
to a record created as `running`, once the status is terminal it is never
`running` again afterwards. -/
theorem update_record_terminal_invariants :
    (∀ (st : SessionStatus) (ec : Option Int) (now : Nat) (r : SessionRecord),
      st.isFinal = true →
      (updateSessionRecord (some st) ec now r).finished_at = some now) ∧
    (∀ (now : Nat) (r : SessionRecord), r.status = SessionStatus.running →
      (orphanRecover now r).finished_at = some now) ∧
    (∀ (r : SessionRecord) (us₁ us₂ : List CoreUpdate),
      r.status = SessionStatus.running →
      (applyUpdates us₁ r).status.isFinal = true →
      (applyUpdates (us₁ ++ us₂) r).status ≠ SessionStatus.running) := by
  refine ⟨?_, ?_, ?_⟩
  · intro st ec now r hst
    cases ec <;> simp [updateSessionRecord, hst]
  · intro now r hr
    simp [orphanRecover, hr]
  · intro r us₁ us₂ _ hfin
    have : applyUpdates (us₁ ++ us₂) r = applyUpdates us₂ (applyUpdates us₁ r) := by
      simp [applyUpdates, List.foldl_append]
    rw [this]
    exact isFinal_ne_running (applyUpdates_final us₂ _ hfin)

/-- C1 witness: a concrete record created as running, terminated, then hit by
orphan recovery, never returns to `running`, and the terminal update stamped
`finished_at`. -/
theorem update_record_terminal_invariants_witness :
    (SessionStatus.stopped.isFinal = true ∧
      (updateSessionRecord (some SessionStatus.stopped) none 7
        (mkSessionRecord "s" 1 none "log" 0)).finished_at = some 7) ∧
    ((mkSessionRecord "s" 1 none "log" 0).status = SessionStatus.running ∧
      (orphanRecover 9 (mkSessionRecord "s" 1 none "log" 0)).finished_at = some 9) ∧
    (applyUpdates [CoreUpdate.terminateUpd 7]
        (mkSessionRecord "s" 1 none "log" 0)).status.isFinal = true ∧
    (applyUpdates ([CoreUpdate.terminateUpd 7] ++ [CoreUpdate.orphan 9])
        (mkSessionRecord "s" 1 none "log" 0)).status ≠ SessionStatus.running := by
  refine ⟨⟨by decide, ?_⟩, ⟨by decide, ?_⟩, by decide, ?_⟩
  · exact (update_record_terminal_invariants.1) SessionStatus.stopped none 7
      (mkSessionRecord "s" 1 none "log" 0) (by decide)
  · exact (update_record_terminal_invariants.2.1) 9
      (mkSessionRecord "s" 1 none "log" 0) (by decide)
  · exact (update_record_terminal_invariants.2.2) (mkSessionRecord "s" 1 none "log" 0)
      [CoreUpdate.terminateUpd 7] [CoreUpdate.orphan 9] (by decide) (by decide)

/-- C4: `diff_status` returns `added` = keys of `after` absent from `before`
rendered as `<path> (<code>)`, `deleted` = keys of `before` absent from
`after` rendered the same way, `modified` = keys present in both maps with
differing codes rendered as `<path> (<old> -> <new>)`; and on a map with
unique keys (every Python dict), `diff_status before before` has all three
buckets empty. -/
theorem diff_status_characterisation (before after : List (String × String)) :
    ((diff_status before after).added =
        (after.filter (fun p => !dictContains before p.1)).map renderEntry ∧
      (diff_status before after).modified =
        after.filterMap (renderModified before) ∧
      (diff_status before after).deleted =
        (before.filter (fun p => !dictContains after p.1)).map renderEntry) ∧
    ((before.map Prod.fst).Nodup → diff_status before before = ⟨[], [], []⟩) := by
  constructor
  · rw [diff_status, foldl_diffStepAfter, foldl_diffStepBefore]
    exact ⟨rfl, rfl, rfl⟩
  · intro hnd
    rw [diff_status, foldl_diffStepAfter, foldl_diffStepBefore]
    have hcontains : ∀ p ∈ before, dictContains before p.1 = true := by
      intro p hp
      simp [dictContains, dictLookup_self before hnd p hp]
    have hfilter : before.filter (fun p => !dictContains before p.1) = [] := by
      rw [List.filter_eq_nil_iff]
      intro p hp
      simp [hcontains p hp]
    have hmod : before.filterMap (renderModified before) = [] := by
      rw [List.filterMap_eq_nil_iff]
      intro p hp
      simp [renderModified, dictLookup_self before hnd p hp]
    simp [hfilter, hmod]

/-- C4 witness: concrete maps exercising all three buckets and the
self-diff law. -/
theorem diff_status_characterisation_witness :
    ((diff_status [("a", "M"), ("b", "A")] [("b", "M"), ("c", "??")]).added =
        ((([("b", "M"), ("c", "??")] : List (String × String)).filter
          (fun p => !dictContains [("a", "M"), ("b", "A")] p.1)).map renderEntry) ∧
      (diff_status [("a", "M"), ("b", "A")] [("b", "M"), ("c", "??")]).modified =
        ([("b", "M"), ("c", "??")] : List (String × String)).filterMap
          (renderModified [("a", "M"), ("b", "A")]) ∧
      (diff_status [("a", "M"), ("b", "A")] [("b", "M"), ("c", "??")]).deleted =
        ((([("a", "M"), ("b", "A")] : List (String × String)).filter
          (fun p => !dictContains [("b", "M"), ("c", "??")] p.1)).map renderEntry)) ∧
    ((([("a", "M"), ("b", "A")] : List (String × String)).map Prod.fst).Nodup ∧
      diff_status [("a", "M"), ("b", "A")] [("a", "M"), ("b", "A")] = ⟨[], [], []⟩) := by
  refine ⟨(diff_status_characterisation [("a", "M"), ("b", "A")] [("b", "M"), ("c", "??")]).1,
    ⟨by decide, (diff_status_characterisation [("a", "M"), ("b", "A")]
      [("b", "M"), ("c", "??")]).2 (by decide)⟩⟩

lemma lookupCtx_removeCtxEntry (sessions : List (String × SessionContext)) (sid : String) :
    lookupCtx (removeCtxEntry sessions sid) sid = none := by
  unfold lookupCtx removeCtxEntry
  rw [Option.map_eq_none', List.find?_eq_none]
  intro p hp
  have h2 := (List.mem_filter.mp hp).2
  simp only [decide_eq_true_eq] at h2 ⊢
  exact h2

/-- C6: broadcasting a chunk iterates over a snapshot of the subscriber set;
every subscriber whose send fails is removed, every other subscriber in the
snapshot receives the chunk, and nothing else on the context changes. -/
theorem broadcast_snapshot_fanout (fails : Nat → Bool) (ctx : SessionContext)
    (text : String) :
    (broadcast_text fails ctx text).2 =
      (ctx.sockets.filter (fun s => !fails s)).map (fun s => (s, text)) ∧
    (broadcast_text fails ctx text).1.sockets =
      ctx.sockets.filter (fun s => !fails s) ∧
    (broadcast_text fails ctx text).1 =
      { ctx with sockets := ctx.sockets.filter (fun s => !fails s) } := by
  have hsock := broadcastLoop_sockets fails text ctx.sockets ctx.sockets
    (fun t ht _ => ht)
  have hsent := broadcastLoop_sent fails text ctx.sockets ctx.sockets
  refine ⟨?_, ?_, ?_⟩ <;> simp [broadcast_text, hsock, hsent]

/-- A live registered session used as a concrete test vector. -/
def ctxLive : SessionContext :=
  { session_id := "s1", profile_id := 1, cwd_has_git := false,
    command_buffer := "", sockets := [1, 2], pty := some ⟨true⟩,
    log_open := true, reader_active := true, monitor_active := true }

/-- A concrete durable record for the same session. -/
def recLive : SessionRecord := mkSessionRecord "s1" 1 none "log" 0

/-- C2 counterexample: on a registered session with a live child,
`terminate_session` performs no graceful back-end terminate with a
2-second grace window — the very first event is already the forced
terminate (`pty.terminate(force=True)`) with no grace window at all. -/
theorem terminate_session_no_grace_counterexample :
    TermEvent.terminateChild false (some 2) ∉
      (terminate_session [("s1", ctxLive)] "s1" none recLive 5).2.2 ∧
    (∀ g : Nat, TermEvent.terminateChild true (some g) ∉
      (terminate_session [("s1", ctxLive)] "s1" none recLive 5).2.2) ∧
    (terminate_session [("s1", ctxLive)] "s1" none recLive 5).2.2.head? =
      some (TermEvent.terminateChild true none) := by
  refine ⟨by decide, ?_, by decide⟩
  intro g
  simp [terminate_session, lookupCtx, ctxLive, List.find?, updateSessionRecord,
    SessionStatus.isFinal]

/-- C2 amended: for every registered session whose child handle is present,
`terminate_session` immediately invokes the back-end terminate with
`force=True` and no grace window, then closes the log, cancels the pump and
monitor tasks, broadcasts the reason (if given), updates the durable record
to `stopped`, and removes the context from the registry. -/
theorem terminate_session_behaviour (sessions : List (String × SessionContext))
    (sid : String) (reason : Option String) (record : SessionRecord) (now : Nat)
    (ctx : SessionContext) (h : PtyHandle)
    (hctx : lookupCtx sessions sid = some ctx) (hpty : ctx.pty = some h) :
    (terminate_session sessions sid reason record now).2.2 =
      [TermEvent.terminateChild true none, TermEvent.closeLog, TermEvent.cancelTasks] ++
      (match reason with
       | some msg => [TermEvent.broadcastMsg ("\r\n" ++ msg ++ "\r\n")]
       | none => []) ++
      [TermEvent.recordUpdate SessionStatus.stopped, TermEvent.removeCtx] ∧
    lookupCtx (terminate_session sessions sid reason record now).1 sid = none ∧
    (terminate_session sessions sid reason record now).2.1.status =
      SessionStatus.stopped ∧
    (terminate_session sessions sid reason record now).2.1.finished_at = some now := by
  cases reason <;>
    simp [terminate_session, hctx, hpty, lookupCtx_removeCtxEntry,
      updateSessionRecord, SessionStatus.isFinal]

/-- C2 amended witness: the concrete live session, terminated with reason
`bye`, produces exactly the forced-terminate trace. -/
theorem terminate_session_behaviour_witness :
    lookupCtx [("s1", ctxLive)] "s1" = some ctxLive ∧
    ctxLive.pty = some ⟨true⟩ ∧
    ((terminate_session [("s1", ctxLive)] "s1" (some "bye") recLive 5).2.2 =
      [TermEvent.terminateChild true none, TermEvent.closeLog, TermEvent.cancelTasks] ++
      [TermEvent.broadcastMsg ("\r\n" ++ "bye" ++ "\r\n")] ++
      [TermEvent.recordUpdate SessionStatus.stopped, TermEvent.removeCtx] ∧
     lookupCtx (terminate_session [("s1", ctxLive)] "s1" (some "bye") recLive 5).1 "s1" =
       none ∧
     (terminate_session [("s1", ctxLive)] "s1" (some "bye") recLive 5).2.1.status =
       SessionStatus.stopped ∧
     (terminate_session [("s1", ctxLive)] "s1" (some "bye") recLive 5).2.1.finished_at =
       some 5) :=
  ⟨by decide, by decide,
    terminate_session_behaviour [("s1", ctxLive)] "s1" (some "bye") recLive 5
      ctxLive ⟨true⟩ (by decide) (by decide)⟩

/-- C10: the record update performed by `terminate_session` changes only
`status` (to `stopped`) and `finished_at`; `exit_code`, `created_at`, `cwd`,
`log_path` and `profile_id` are left unchanged, so a session ended by
explicit termination keeps a null `exit_code`. -/
theorem terminate_record_frame (sessions : List (String × SessionContext))
    (sid : String) (reason : Option String) (record : SessionRecord) (now : Nat)
    (ctx : SessionContext) (hctx : lookupCtx sessions sid = some ctx) :
    (terminate_session sessions sid reason record now).2.1.status =
      SessionStatus.stopped ∧
    (terminate_session sessions sid reason record now).2.1.finished_at = some now ∧
    (terminate_session sessions sid reason record now).2.1.exit_code =
      record.exit_code ∧
    (terminate_session sessions sid reason record now).2.1.created_at =
      record.created_at ∧
    (terminate_session sessions sid reason record now).2.1.cwd = record.cwd ∧
    (terminate_session sessions sid reason record now).2.1.log_path =
      record.log_path ∧
    (terminate_session sessions sid reason record now).2.1.profile_id =
      record.profile_id ∧
    (record.exit_code = none →
      (terminate_session sessions sid reason record now).2.1.exit_code = none) := by
  simp [terminate_session, hctx, updateSessionRecord, SessionStatus.isFinal]

/-- C10 witness: terminating the concrete live session leaves `exit_code`
null and the other fields untouched. -/
theorem terminate_record_frame_witness :
    lookupCtx [("s1", ctxLive)] "s1" = some ctxLive ∧
    (terminate_session [("s1", ctxLive)] "s1" none recLive 5).2.1.exit_code =
      recLive.exit_code ∧
    (recLive.exit_code = none →
      (terminate_session [("s1", ctxLive)] "s1" none recLive 5).2.1.exit_code = none) :=
  ⟨by decide,
    (terminate_record_frame [("s1", ctxLive)] "s1" none recLive 5 ctxLive
      (by decide)).2.2.1,
    (terminate_record_frame [("s1", ctxLive)] "s1" none recLive 5 ctxLive
      (by decide)).2.2.2.2.2.2.2⟩

/-- C7: when the child of a session exits, the monitor derives `completed`
iff the exit code is 0 (`error` otherwise), broadcasts the line
`\r\nProcess finished with code <code>\r\n` to the surviving subscribers,
closes the log file, clears the child handle, updates the persisted record
with that status, the exit code and the finish time, and removes the
context from the registry. -/
theorem monitor_finalisation (fails : Nat → Bool) (code : Int)
    (ctx : SessionContext) (record : SessionRecord) (now : Nat) (h : PtyHandle)
    (hpty : ctx.pty = some h) :
    ((monitorRun fails code ctx record now).record.status =
        SessionStatus.completed ↔ code = 0) ∧
    (monitorRun fails code ctx record now).record.status =
      (if code = 0 then SessionStatus.completed else SessionStatus.error) ∧
    (monitorRun fails code ctx record now).sent =
      (ctx.sockets.filter (fun s => !fails s)).map
        (fun s => (s, "\r\nProcess finished with code " ++ toString code ++ "\r\n")) ∧
    (monitorRun fails code ctx record now).ctx.log_open = false ∧
    (monitorRun fails code ctx record now).ctx.pty = none ∧
    (monitorRun fails code ctx record now).record.exit_code = some code ∧
    (monitorRun fails code ctx record now).record.finished_at = some now ∧
    (monitorRun fails code ctx record now).removed = true := by
  by_cases hc : code = 0 <;>
    simp [monitorRun, hpty, hc, broadcast_text, broadcastLoop_sent,
      updateSessionRecord, SessionStatus.isFinal]

/-- C7 witness: a child exiting with code 0 on the concrete live session is
finalised as `completed` with the exit notice delivered to both subscribers. -/
theorem monitor_finalisation_witness :
    ctxLive.pty = some ⟨true⟩ ∧
    ((monitorRun (fun _ => false) 0 ctxLive recLive 3).record.status =
        SessionStatus.completed ↔ (0 : Int) = 0) ∧
    (monitorRun (fun _ => false) 0 ctxLive recLive 3).sent =
      (ctxLive.sockets.filter (fun s => !(fun _ => false) s)).map
        (fun s => (s, "\r\nProcess finished with code " ++ toString (0 : Int) ++ "\r\n")) :=
  ⟨by decide,
    (monitor_finalisation (fun _ => false) 0 ctxLive recLive 3 ⟨true⟩ (by decide)).1,
    (monitor_finalisation (fun _ => false) 0 ctxLive recLive 3 ⟨true⟩ (by decide)).2.2.1⟩

/-- C3 counterexample: a `POST /sessions` body with `quantity = 0` (or 11)
for an existing profile is rejected by the schema validation with 422 —
it is not clamped to 1 (or 10) and no session is created. -/
theorem create_session_clamp_counterexample :
    create_session_endpoint true 0 = Except.error HttpFailure.unprocessableEntity ∧
    create_session_endpoint true 0 ≠
      Except.ok (List.replicate 1 SessionStatus.running) ∧
    create_session_endpoint true 11 = Except.error HttpFailure.unprocessableEntity ∧
    create_session_endpoint true 11 ≠
      Except.ok (List.replicate 10 SessionStatus.running) := by
  have h0 : create_session_endpoint true 0 =
      Except.error HttpFailure.unprocessableEntity := rfl
  have h11 : create_session_endpoint true 11 =
      Except.error HttpFailure.unprocessableEntity := rfl
  refine ⟨h0, ?_, h11, ?_⟩
  · intro hcontra
    rw [h0] at hcontra
    exact Except.noConfusion hcontra
  · intro hcontra
    rw [h11] at hcontra
    exact Except.noConfusion hcontra

/-- C3 amended: `SessionCreateRequest` validation rejects any quantity
outside 1..10 with 422 before the handler runs, so the handler's clamp never
sees an out-of-range value; for every in-range quantity and existing
profile, exactly `quantity` contexts and `running` records are created
(between 1 and 10 of them). -/
theorem create_session_quantity_behaviour (profileExists : Bool) (q : Int) :
    (1 ≤ q → q ≤ 10 → profileExists = true →
      create_session_endpoint profileExists q =
        Except.ok (List.replicate q.toNat SessionStatus.running) ∧
      1 ≤ q.toNat ∧ q.toNat ≤ 10) ∧
    ((q < 1 ∨ 10 < q) →
      create_session_endpoint profileExists q =
        Except.error HttpFailure.unprocessableEntity) := by
  constructor
  · intro h1 h2 hp
    have hmax : max 1 (min q 10) = q := by
      rw [min_eq_left h2]; exact max_eq_right h1
    refine ⟨?_, by omega, by omega⟩
    simp [create_session_endpoint, h1, h2, hp, hmax]
  · intro hout
    have hni : ¬(1 ≤ q ∧ q ≤ 10) := by omega
    simp [create_session_endpoint, hni]

/-- C3 amended witness: quantity 5 creates five running records; quantity 0
is rejected with 422. -/
theorem create_session_quantity_behaviour_witness :
    ((1 : Int) ≤ 5 ∧ (5 : Int) ≤ 10 ∧
      create_session_endpoint true 5 =
        Except.ok (List.replicate (5 : Int).toNat SessionStatus.running) ∧
      1 ≤ (5 : Int).toNat ∧ (5 : Int).toNat ≤ 10) ∧
    (((0 : Int) < 1 ∨ (10 : Int) < 0) ∧
      create_session_endpoint true 0 =
        Except.error HttpFailure.unprocessableEntity) :=
  ⟨⟨by decide, by decide,
    ((create_session_quantity_behaviour true 5).1 (by decide) (by decide) rfl).1,
    ((create_session_quantity_behaviour true 5).1 (by decide) (by decide) rfl).2⟩,
   ⟨Or.inl (by decide),
    (create_session_quantity_behaviour true 0).2 (Or.inl (by decide))⟩⟩

/-- C5: both git status entry points and the diff-stat entry point return
`none` when the git binary is missing or the subprocess exits non-zero; and
whenever the after snapshot taken during a carriage-return submission is
`none`, the newline handler clears the context's `cwd_has_git` memo and
broadcasts no delta block. -/
theorem git_failure_handling :
    (∀ env : GitEnv, env.binaryPresent = false ∨ env.returncode ≠ 0 →
      get_git_status env = none ∧ get_git_status_rows env = none ∧
        get_git_diff_stat env = none) ∧
    (∀ (ctx : SessionContext) (o : NLOracle) (before : List (String × String)),
      (ctx.cwd_has_git || o.gitDirExists) = true →
      get_git_status o.beforeEnv = some before →
      get_git_status o.afterEnv = none →
      (handle_newline ctx '\r' o).ctx.cwd_has_git = false ∧
      (handle_newline ctx '\r' o).broadcasts = []) := by
  constructor
  · intro env h
    have hnone : run_git env = none := by
      rcases h with h | h
      · simp [run_git, h]
      · cases hb : env.binaryPresent <;> simp [run_git, hb, h]
    simp [get_git_status, get_git_status_rows, get_git_diff_stat, hnone]
  · intro ctx o before hg hB hA
    cases hc : ctx.cwd_has_git with
    | true => constructor <;> simp [handle_newline, hc, hB, hA]
    | false =>
      have hd : o.gitDirExists = true := by rw [hc] at hg; simpa using hg
      constructor <;> simp [handle_newline, hc, hd, hB, hA]

/-- C5 witness: a missing binary yields `none` from the entry points, and a
failing after snapshot on the concrete context clears the memo silently. -/
theorem git_failure_handling_witness :
    ((GitEnv.mk false 0 "").binaryPresent = false ∨
      (GitEnv.mk false 0 "").returncode ≠ 0) ∧
    get_git_status (GitEnv.mk false 0 "") = none ∧
    get_git_diff_stat (GitEnv.mk false 0 "") = none ∧
    ((ctxLive.cwd_has_git ||
        (NLOracle.mk true (GitEnv.mk true 0 "") (GitEnv.mk true 1 "")).gitDirExists) = true ∧
      get_git_status (GitEnv.mk true 0 "") = some (parseStatusMap "") ∧
      get_git_status (GitEnv.mk true 1 "") = none ∧
      (handle_newline ctxLive '\r'
        (NLOracle.mk true (GitEnv.mk true 0 "") (GitEnv.mk true 1 ""))).ctx.cwd_has_git = false ∧
      (handle_newline ctxLive '\r'
        (NLOracle.mk true (GitEnv.mk true 0 "") (GitEnv.mk true 1 ""))).broadcasts = []) :=
  ⟨Or.inl rfl,
   (git_failure_handling.1 (GitEnv.mk false 0 "") (Or.inl rfl)).1,
   (git_failure_handling.1 (GitEnv.mk false 0 "") (Or.inl rfl)).2.2,
   ⟨rfl, rfl, rfl,
    (git_failure_handling.2 ctxLive
      (NLOracle.mk true (GitEnv.mk true 0 "") (GitEnv.mk true 1 ""))
      (parseStatusMap "") rfl rfl rfl).1,
    (git_failure_handling.2 ctxLive
      (NLOracle.mk true (GitEnv.mk true 0 "") (GitEnv.mk true 1 ""))
      (parseStatusMap "") rfl rfl rfl).2⟩⟩

/-- C8: for an existing record, `historical` is true iff the record is in a
terminal state or no live context exists; `message` is the replay banner
exactly when `historical` is true, and null otherwise. -/
theorem fetch_log_historical_flag (record : SessionRecord)
    (ctx? : Option SessionContext) :
    ((fetch_log_flags record ctx?).1 = true ↔
      (record.status.isFinal = true ∨ is_active ctx? = false)) ∧
    (fetch_log_flags record ctx?).2 =
      (if (fetch_log_flags record ctx?).1 then some historicalBanner else none) := by
  constructor
  · unfold fetch_log_flags
    cases hs : record.status <;> cases ha : is_active ctx? <;>
      simp [SessionStatus.isFinal, ha]
  · rfl

lemma backspace_step (ctx : SessionContext) (h : PtyHandle)
    (oracles : List NLOracle) (c : Char)
    (hc : c = '\u0008' ∨ c = '\u007f') (hpty : ctx.pty = some h) :
    process_input ctx [c] oracles =
      ⟨{ ctx with command_buffer := ctx.command_buffer.dropRight 1 },
        [String.singleton c], []⟩ := by
  have hne : ctx.pty ≠ none := by rw [hpty]; exact Option.some_ne_none h
  rcases hc with hc | hc <;> subst hc <;>
    (simp [process_input, processChars, flush_buffer, write_to_pty, hne]; try rfl)

/-- C9: the keystroke parser handles backspace (U+0008) and delete (U+007F)
totally: the command buffer loses its last code point (an already-empty
buffer stays empty, with no error raised), and the byte is still appended
to the pending write buffer and forwarded to the child; nothing is
broadcast. -/
theorem backspace_on_empty_buffer (ctx : SessionContext) (h : PtyHandle)
    (oracles : List NLOracle) (c : Char)
    (hc : c = '\u0008' ∨ c = '\u007f') (hpty : ctx.pty = some h) :
    (process_input ctx [c] oracles).ctx.command_buffer =
      ctx.command_buffer.dropRight 1 ∧
    (ctx.command_buffer = "" →
      (process_input ctx [c] oracles).ctx.command_buffer = "") ∧
    (process_input ctx [c] oracles).writes = [String.singleton c] ∧
    (process_input ctx [c] oracles).broadcasts = [] := by
  rw [backspace_step ctx h oracles c hc hpty]
  refine ⟨rfl, fun hb => ?_, rfl, rfl⟩
  show ctx.command_buffer.dropRight 1 = ""
  rw [hb]
  decide

/-- C9 witness: a single backspace against an empty command buffer leaves it
empty and forwards the byte. -/
theorem backspace_on_empty_buffer_witness :
    (('\u0008' = '\u0008' ∨ '\u0008' = '\u007f') ∧ ctxLive.pty = some ⟨true⟩) ∧
    (ctxLive.command_buffer = "" →
      (process_input ctxLive ['\u0008'] []).ctx.command_buffer = "") ∧
    (process_input ctxLive ['\u0008'] []).writes = [String.singleton '\u0008'] :=
  ⟨⟨Or.inl rfl, by decide⟩,
   (backspace_on_empty_buffer ctxLive ⟨true⟩ [] '\u0008' (Or.inl rfl) (by decide)).2.1,
   (backspace_on_empty_buffer ctxLive ⟨true⟩ [] '\u0008' (Or.inl rfl) (by decide)).2.2.1⟩

end TerminalManage
